import Mathlib

/-!
Shallow embedding of the ESP32 "timekeeper" firmware (src/main/main.c).

The firmware runs a SoftAP; on the first accepted phone connection of the
day it starts a 9h15m countdown, schedules a delayed deauth, persists its
state to NVS, and drives a TM1637 display from a DS3231 wall clock.

The embedding translates the decision logic of main.c: the global state,
the NVS save/load paths, the Wi-Fi event handler, the deauth timer
callback, the boot-time day establishment and the main-loop cycle.
External collaborators (RTC read, mktime, system clock, the NVS store,
the esp_timer) are modelled as explicit inputs / explicit record state.
Compile-time configuration is fixed as in the source: RELEARN_MAC_DAILY
and AUTO_DEAUTH_ON_FIRST_CONNECT are defined, AUTO_DEAUTH_ALWAYS is not.
-/

namespace Timekeeper

/-- A MAC address: the six bytes of `uint8_t mac[6]`. -/
structure Mac where
  b0 : Nat
  b1 : Nat
  b2 : Nat
  b3 : Nat
  b4 : Nat
  b5 : Nat
deriving DecidableEq, Repr

/-- The all-zero MAC, `memset(s_phone_mac, 0, 6)`. -/
def zeroMac : Mac := ⟨0, 0, 0, 0, 0, 0⟩

/-- DAILY_TARGET_SEC = 9*3600 + 15*60 = 33300 (main.c line 58). -/
def DAILY_TARGET_SEC : Int := 9 * 3600 + 15 * 60

/-- DEAUTH_DELAY_MS = 4000 (main.c line 44). -/
def DEAUTH_DELAY_MS : Nat := 4000

/-- The relevant fields of `struct tm` as read from the DS3231. -/
structure Tm where
  tm_year : Int
  tm_mon : Int
  tm_mday : Int
  tm_hour : Int
  tm_min : Int
  tm_sec : Int
deriving DecidableEq, Repr

/-- Conversion of an `int` expression to `uint32_t` (modulo 2^32). -/
def toU32 (x : Int) : Nat := (x % 4294967296).toNat

/-- day_key_from_tm (main.c lines 87-89):
`(uint32_t)((t->tm_year + 1900) * 10000 + (t->tm_mon + 1) * 100 + t->tm_mday)`. -/
def day_key_from_tm (t : Tm) : Nat :=
  toU32 ((t.tm_year + 1900) * 10000 + (t.tm_mon + 1) * 100 + t.tm_mday)

/-- The firmware's mutable globals (main.c lines 71-84), plus an explicit
model of the one-shot esp_timer handle: `timer_created` is whether
`esp_timer_create` succeeded (`s_deauth_timer != NULL`), `timer_running`
is whether a one-shot fire is armed, `timer_delay_us` the armed delay. -/
structure Fw where
  s_started : Bool
  s_remaining : Int
  s_day_key : Nat
  s_phone_mac : Mac
  s_have_mac : Bool
  s_last_save_epoch : Int
  s_deauth_pending : Bool
  s_deauth_aid : Nat
  s_deauth_mac : Mac
  timer_created : Bool
  timer_running : Bool
  timer_delay_us : Nat
deriving DecidableEq, Repr

/-- The NVS namespace "tk": each key is present or absent; absent keys
make the corresponding `nvs_get_*` fail, leaving the in-memory default. -/
structure NvsStore where
  day : Option Nat
  rem : Option Int
  started_u8 : Option Nat
  have_mac_u8 : Option Nat
  mac_blob : Option Mac
deriving DecidableEq, Repr

/-- The common body of both save paths (main.c lines 128-133 / 140-145):
set day, rem, started (as 0/1), have_mac (as 0/1), and the MAC blob only
when `s_have_mac`; commit.  An absent write leaves the old stored value. -/
def writeRecord (s : Fw) (st : NvsStore) : NvsStore :=
  { day := some s.s_day_key
    rem := some s.s_remaining
    started_u8 := some (if s.s_started then 1 else 0)
    have_mac_u8 := some (if s.s_have_mac then 1 else 0)
    mac_blob := if s.s_have_mac then some s.s_phone_mac else st.mac_blob }

/-- nvs_save_state (main.c lines 121-135), the throttled path: returns
early (no write) when `now - s_last_save_epoch < 60`; otherwise sets
`s_last_save_epoch = now` and writes the record.  `now` is the value
read by `time(&now)`.  The third component reports whether the write
happened. -/
def nvs_save_state (now : Int) (s : Fw) (st : NvsStore) :
    Fw × NvsStore × Bool :=
  if now - s.s_last_save_epoch < 60 then (s, st, false)
  else ({ s with s_last_save_epoch := now }, writeRecord s st, true)

/-- nvs_save_state_immediate (main.c lines 137-148): unconditional write,
then `s_last_save_epoch = 0`. -/
def nvs_save_state_immediate (s : Fw) (st : NvsStore) : Fw × NvsStore :=
  ({ s with s_last_save_epoch := 0 }, writeRecord s st)

/-- nvs_load_state (main.c lines 150-168): each successful `nvs_get_*`
overwrites the in-memory field; if `s_have_mac` ends up true but the MAC
blob read fails, `s_have_mac` is cleared and the MAC zeroed. -/
def nvs_load_state (st : NvsStore) (s : Fw) : Fw :=
  let dk := st.day.getD s.s_day_key
  let rem := st.rem.getD s.s_remaining
  let sb := match st.started_u8 with
    | some b => decide (b ≠ 0)
    | none => s.s_started
  let hm := match st.have_mac_u8 with
    | some b => decide (b ≠ 0)
    | none => s.s_have_mac
  if hm then
    match st.mac_blob with
    | some m =>
        { s with s_day_key := dk, s_remaining := rem, s_started := sb
                 s_have_mac := true, s_phone_mac := m }
    | none =>
        { s with s_day_key := dk, s_remaining := rem, s_started := sb
                 s_have_mac := false, s_phone_mac := zeroMac }
  else
    { s with s_day_key := dk, s_remaining := rem, s_started := sb
             s_have_mac := hm }

/-- deauth_timer_cb (main.c lines 171-182).  `ok` is whether
`esp_wifi_deauth_sta` succeeds (its failure is only logged).  Returns the
new state and `some aid` when the deauth action was invoked with `aid`. -/
def deauth_timer_cb (ok : Bool) (s : Fw) : Fw × Option Nat :=
  if s.s_deauth_pending = true ∧ s.s_deauth_aid ≠ 0 then
    ({ s with s_deauth_pending := false, s_deauth_aid := 0 },
     some s.s_deauth_aid)
  else (s, none)

/-- A fire of the one-shot esp_timer: only possible while armed; the
one-shot expires (disarms) and then runs `deauth_timer_cb`. -/
def timer_fire (ok : Bool) (s : Fw) : Fw × Option Nat :=
  if s.timer_running = true then
    deauth_timer_cb ok { s with timer_running := false }
  else (s, none)

/-- Result of handling a `WIFI_EVENT_AP_STACONNECTED` event:
the new globals, the new NVS contents, and how many calls to
`nvs_save_state_immediate` were made. -/
structure ConnOut where
  fw : Fw
  store : NvsStore
  immediateSaves : Nat
deriving DecidableEq, Repr

/-- WIFI_EVENT_AP_STACONNECTED branch of wifi_event_handler
(main.c lines 186-237), with the source's configuration:
RELEARN_MAC_DAILY defined (`can_relearn = !s_started`) and
AUTO_DEAUTH_ON_FIRST_CONNECT defined (`should_deauth` iff `!s_started`,
evaluated before `s_started` is set).  Arming the deauth stops any
previous one-shot before `esp_timer_start_once`. -/
def wifi_connected (m : Mac) (aid : Nat) (s : Fw) (st : NvsStore) :
    ConnOut :=
  let mac_matches : Bool := s.s_have_mac && decide (s.s_phone_mac = m)
  let can_relearn : Bool := !s.s_started
  let accept_as_phone : Bool := !s.s_have_mac || mac_matches || can_relearn
  if accept_as_phone then
    let learned : Bool := !s.s_have_mac || (!mac_matches && can_relearn)
    let s1 := if learned then
        { s with s_phone_mac := m, s_have_mac := true } else s
    let st1 := if learned then (nvs_save_state_immediate s1 st).2 else st
    let s1 := if learned then (nvs_save_state_immediate s1 st).1 else s1
    let n1 : Nat := if learned then 1 else 0
    let should_deauth : Bool := !s1.s_started
    let s2 := if !s1.s_started then { s1 with s_started := true } else s1
    let st2 := if !s1.s_started then (nvs_save_state_immediate s2 st1).2
      else st1
    let s2 := if !s1.s_started then (nvs_save_state_immediate s2 st1).1
      else s2
    let n2 : Nat := if !s1.s_started then 1 else 0
    if should_deauth && s2.timer_created then
      { fw := { s2 with s_deauth_mac := m, s_deauth_aid := aid
                        s_deauth_pending := true, timer_running := true
                        timer_delay_us := DEAUTH_DELAY_MS * 1000 }
        store := st2, immediateSaves := n1 + n2 }
    else
      { fw := s2, store := st2, immediateSaves := n1 + n2 }
  else
    { fw := s, store := st, immediateSaves := 0 }

/-- WIFI_EVENT_AP_STADISCONNECTED branch of wifi_event_handler
(main.c lines 238-245): stop the timer if created, then clear
`s_deauth_pending` and `s_deauth_aid`.  The event's MAC and association
id are only logged. -/
def wifi_disconnected (m : Mac) (aid : Nat) (s : Fw) : Fw :=
  { s with
      timer_running := if s.timer_created then false else s.timer_running
      s_deauth_pending := false
      s_deauth_aid := 0 }

/-- Result of the boot-time day establishment. -/
structure BootOut where
  fw : Fw
  store : NvsStore
  forceSaved : Bool
deriving DecidableEq, Repr

/-- Boot-time day establishment (main.c lines 304-318).  `reading` is
`some t` when `s_rtc_ok && ds3231_get_time == ESP_OK`, else `none`;
`fallback` is the `struct tm` taken from `localtime_r(time(...))` in the
failure branch. -/
def bootEstablishDay (reading : Option Tm) (fallback : Tm) (s : Fw)
    (st : NvsStore) : BootOut :=
  match reading with
  | some t =>
      let today := day_key_from_tm t
      if s.s_day_key ≠ today then
        let s1 := { s with s_day_key := today, s_started := false
                           s_remaining := DAILY_TARGET_SEC }
        let p := nvs_save_state_immediate s1 st
        { fw := p.1, store := p.2, forceSaved := true }
      else { fw := s, store := st, forceSaved := false }
  | none =>
      { fw := { s with s_day_key := day_key_from_tm fallback }, store := st
        forceSaved := false }

/-- Arguments of one `tm1637_show_hhmm(h, m, colon)` call. -/
structure DisplayOut where
  hh : Nat
  mm : Nat
  colon : Bool
deriving DecidableEq, Repr

/-- Display rendering in the RTC-ok branch (main.c lines 369-374):
clamp remaining below at 0 and hours above at 99. -/
def renderDisplay (t : Tm) (remaining : Int) : DisplayOut :=
  let rem := if remaining < 0 then 0 else remaining
  let rh := rem / 3600
  let rm := (rem % 3600) / 60
  let colon : Bool := decide (t.tm_sec % 2 = 0)
  let rh := if rh > 99 then 99 else rh
  { hh := rh.toNat, mm := rm.toNat, colon := colon }

/-- Day-boundary check inside the main loop (main.c lines 344-352). -/
structure RollOut where
  fw : Fw
  store : NvsStore
  saved : Bool
deriving DecidableEq, Repr

/-- The main-loop day rollover (main.c lines 344-352): when the day key
of the fresh reading differs from `s_day_key`, reset and force-write. -/
def rolloverCheck (t : Tm) (s : Fw) (st : NvsStore) : RollOut :=
  let today := day_key_from_tm t
  if today ≠ s.s_day_key then
    let s1 := { s with s_day_key := today, s_started := false
                       s_remaining := DAILY_TARGET_SEC }
    let p := nvs_save_state_immediate s1 st
    { fw := p.1, store := p.2, saved := true }
  else { fw := s, store := st, saved := false }

/-- Result of the tick decrement step. -/
structure TickOut where
  fw : Fw
  store : NvsStore
  attempted : Bool
  wrote : Bool
deriving DecidableEq, Repr

/-- Clamp of the raw epoch difference to [0, 60], as the two sequential
ifs of main.c lines 356-357 compute it. -/
def clampDelta (d : Int) : Int :=
  let d := if d < 0 then 0 else d
  if d > 60 then 60 else d

/-- The tick decrement (main.c lines 354-365): clamp
`delta = epoch - last_epoch` to [0, 60]; if started and remaining > 0,
decrement by `min(delta, remaining)`; attempt the throttled save when
the decrement was positive and the new remaining is a multiple of 60.
`sysNow` is the system-clock value `time(&now)` reads inside
`nvs_save_state`. -/
def tickStep (epoch lastEpoch sysNow : Int) (s : Fw) (st : NvsStore) :
    TickOut :=
  let delta := clampDelta (epoch - lastEpoch)
  if s.s_started = true ∧ s.s_remaining > 0 then
    let dec := if delta > s.s_remaining then s.s_remaining else delta
    let s1 := { s with s_remaining := s.s_remaining - dec }
    if dec > 0 ∧ s1.s_remaining % 60 = 0 then
      let p := nvs_save_state sysNow s1 st
      { fw := p.1, store := p.2.1, attempted := true, wrote := p.2.2 }
    else { fw := s1, store := st, attempted := false, wrote := false }
  else { fw := s, store := st, attempted := false, wrote := false }

/-- Result of one main-loop cycle. -/
structure CycleOut where
  fw : Fw
  store : NvsStore
  lastEpoch : Int
  display : DisplayOut
  forceSaved : Bool
  throttleAttempted : Bool
  throttleWrote : Bool
deriving DecidableEq, Repr

/-- One iteration of the main loop (main.c lines 339-387).  `reading` is
`some (t, epoch)` when `s_rtc_ok && ds3231_get_time == ESP_OK`, with
`epoch = mktime(&t)`; on failure the cycle only renders the fallback
`tm1637_show_hhmm(0, 0, false)`. -/
def loopCycle (s : Fw) (st : NvsStore) (lastEpoch : Int)
    (reading : Option (Tm × Int)) (sysNow : Int) : CycleOut :=
  match reading with
  | none =>
      { fw := s, store := st, lastEpoch := lastEpoch
        display := { hh := 0, mm := 0, colon := false }
        forceSaved := false, throttleAttempted := false
        throttleWrote := false }
  | some (t, epoch) =>
      let r := rolloverCheck t s st
      let k := tickStep epoch lastEpoch sysNow r.fw r.store
      { fw := k.fw, store := k.store, lastEpoch := epoch
        display := renderDisplay t k.fw.s_remaining
        forceSaved := r.saved, throttleAttempted := k.attempted
        throttleWrote := k.wrote }

/-! Concrete example values used by witnesses and counterexamples. -/

/-- Example phone MAC AA:BB:CC:DD:EE:FF. -/
def exMacA : Mac := ⟨0xAA, 0xBB, 0xCC, 0xDD, 0xEE, 0xFF⟩

/-- Example foreign MAC, different from `exMacA`. -/
def exMacB : Mac := ⟨1, 2, 3, 4, 5, 6⟩

/-- Example empty NVS namespace. -/
def exStore : NvsStore := ⟨none, none, none, none, none⟩

/-- Example mid-day firmware state: countdown running, phone known. -/
def exFw : Fw :=
  { s_started := true, s_remaining := 33240, s_day_key := 20251012
    s_phone_mac := exMacA, s_have_mac := true, s_last_save_epoch := 1000
    s_deauth_pending := false, s_deauth_aid := 0, s_deauth_mac := zeroMac
    timer_created := true, timer_running := false, timer_delay_us := 0 }

/-- Example boot-fresh state: no phone known, countdown not started. -/
def exFresh : Fw :=
  { exFw with s_have_mac := false, s_started := false
              s_remaining := DAILY_TARGET_SEC, s_phone_mac := zeroMac }

/-- Example state with a deauth armed for association id 5. -/
def exArmed : Fw :=
  { exFw with s_deauth_pending := true, s_deauth_aid := 5
              timer_running := true, timer_delay_us := 4000000 }

/-- Example wall-clock reading whose day key is 20251012. -/
def exTm : Tm :=
  { tm_year := 125, tm_mon := 9, tm_mday := 12
    tm_hour := 10, tm_min := 30, tm_sec := 4 }

/-- Example wall-clock reading whose day key is 20251013 (next day). -/
def exTm2 : Tm := { exTm with tm_mday := 13 }

/-! Helper lemmas shared by the claim theorems. -/

/-- A main-loop cycle whose reading matches the stored day key leaves the
rollover check inert. -/
theorem rolloverCheck_same (t : Tm) (s : Fw) (st : NvsStore)
    (h : day_key_from_tm t = s.s_day_key) :
    rolloverCheck t s st = { fw := s, store := st, saved := false } := by
  simp [rolloverCheck, h]

/-- Decrement expression of main.c line 360 written as a `min`. -/
theorem code_dec_eq_min (delta rem : Int) :
    (if delta > rem then rem else delta) = min delta rem := by
  rcases le_or_lt delta rem with h | h
  · rw [if_neg (not_lt.mpr h), min_eq_left h]
  · rw [if_pos h, min_eq_right h.le]

/-- Field-level description of the tick decrement: `s_started`,
`s_day_key`, `s_have_mac`, `s_phone_mac` are untouched and `s_remaining`
drops by `min (clampDelta (epoch - lastEpoch)) s_remaining` exactly when
started with time remaining. -/
theorem tickStep_fields (epoch lastEpoch sysNow : Int) (s : Fw)
    (st : NvsStore) :
    (tickStep epoch lastEpoch sysNow s st).fw.s_started = s.s_started ∧
    (tickStep epoch lastEpoch sysNow s st).fw.s_day_key = s.s_day_key ∧
    (tickStep epoch lastEpoch sysNow s st).fw.s_have_mac = s.s_have_mac ∧
    (tickStep epoch lastEpoch sysNow s st).fw.s_phone_mac =
      s.s_phone_mac ∧
    (tickStep epoch lastEpoch sysNow s st).fw.s_remaining =
      (if s.s_started = true ∧ s.s_remaining > 0 then
        s.s_remaining - min (clampDelta (epoch - lastEpoch)) s.s_remaining
      else s.s_remaining) := by
  refine ⟨?_, ?_, ?_, ?_, ?_⟩ <;>
    simp only [tickStep, nvs_save_state, code_dec_eq_min] <;>
    split <;> (try split) <;> (try split) <;> simp_all

/-- Bounds of the clamped delta. -/
theorem clampDelta_bounds (d : Int) :
    0 ≤ clampDelta d ∧ clampDelta d ≤ 60 := by
  simp only [clampDelta]
  split <;> split <;> omega

/-- A main-loop cycle whose fresh reading matches the stored day key is
exactly the tick step (no rollover, no force save). -/
theorem loopCycle_same_day (s : Fw) (st : NvsStore)
    (lastEpoch sysNow epoch : Int) (t : Tm)
    (hday : day_key_from_tm t = s.s_day_key) :
    loopCycle s st lastEpoch (some (t, epoch)) sysNow =
      { fw := (tickStep epoch lastEpoch sysNow s st).fw
        store := (tickStep epoch lastEpoch sysNow s st).store
        lastEpoch := epoch
        display := renderDisplay t
          (tickStep epoch lastEpoch sysNow s st).fw.s_remaining
        forceSaved := false
        throttleAttempted := (tickStep epoch lastEpoch sysNow s st).attempted
        throttleWrote := (tickStep epoch lastEpoch sysNow s st).wrote } := by
  simp [loopCycle, rolloverCheck_same t s st hday]

/-! Claim theorems. -/

/-- C8: if the time source read fails on a main-loop cycle, that cycle
performs neither the day-rollover check nor the tick decrement —
`s_started`, `s_remaining`, `s_day_key` and the known device are exactly
as before, `last_epoch` and the NVS contents are untouched, no save path
runs, and the display shows the fallback `tm1637_show_hhmm(0,0,false)`. -/
theorem C8_rtc_failure_freezes_state (s : Fw) (st : NvsStore)
    (lastEpoch sysNow : Int) :
    loopCycle s st lastEpoch none sysNow =
      { fw := s, store := st, lastEpoch := lastEpoch
        display := { hh := 0, mm := 0, colon := false }
        forceSaved := false, throttleAttempted := false
        throttleWrote := false } := rfl

/-- C9: `nvs_save_state_immediate` followed by `nvs_load_state` (into any
in-memory state) reproduces `day_key`, `remaining_seconds` and `started`
field by field, restores the presence flag, and restores the known-device
MAC whenever a device was known at save time. -/
theorem C9_save_load_roundtrip (s s0 : Fw) (st : NvsStore) :
    (nvs_load_state (nvs_save_state_immediate s st).2 s0).s_day_key =
      s.s_day_key ∧
    (nvs_load_state (nvs_save_state_immediate s st).2 s0).s_remaining =
      s.s_remaining ∧
    (nvs_load_state (nvs_save_state_immediate s st).2 s0).s_started =
      s.s_started ∧
    (nvs_load_state (nvs_save_state_immediate s st).2 s0).s_have_mac =
      s.s_have_mac ∧
    (s.s_have_mac = true →
      (nvs_load_state (nvs_save_state_immediate s st).2 s0).s_phone_mac =
        s.s_phone_mac) := by
  cases hs : s.s_started <;> cases hm : s.s_have_mac <;>
    simp [nvs_load_state, nvs_save_state_immediate, writeRecord, hs, hm]

/-- C9 witness: the round trip evaluated at a concrete state. -/
theorem C9_save_load_roundtrip_witness :
    (nvs_load_state (nvs_save_state_immediate exFw exStore).2
      exFresh).s_day_key = exFw.s_day_key ∧
    (nvs_load_state (nvs_save_state_immediate exFw exStore).2
      exFresh).s_remaining = exFw.s_remaining ∧
    (nvs_load_state (nvs_save_state_immediate exFw exStore).2
      exFresh).s_started = exFw.s_started ∧
    (nvs_load_state (nvs_save_state_immediate exFw exStore).2
      exFresh).s_have_mac = exFw.s_have_mac ∧
    (exFw.s_have_mac = true →
      (nvs_load_state (nvs_save_state_immediate exFw exStore).2
        exFresh).s_phone_mac = exFw.s_phone_mac) :=
  C9_save_load_roundtrip exFw exFresh exStore

/-- C4: a connection event from a MAC differing from the stored known MAC,
while a device is known and `started == true` (so relearn is not
permitted), is rejected and is a complete no-op: globals, NVS contents
and the immediate-save count are all unchanged. -/
theorem C4_foreign_mac_rejected (m : Mac) (aid : Nat) (s : Fw)
    (st : NvsStore) (h1 : s.s_have_mac = true) (h2 : s.s_started = true)
    (h3 : s.s_phone_mac ≠ m) :
    wifi_connected m aid s st =
      { fw := s, store := st, immediateSaves := 0 } := by
  simp [wifi_connected, h1, h2, h3]

/-- C4 witness: a concrete foreign-MAC connection while running is a
no-op. -/
theorem C4_foreign_mac_rejected_witness :
    wifi_connected exMacB 7 exFw exStore =
      { fw := exFw, store := exStore, immediateSaves := 0 } :=
  C4_foreign_mac_rejected exMacB 7 exFw exStore rfl rfl (by decide)

/-- C5 counterexample: with a deauth armed for association id 5, a
disconnection event carrying association id 7 ≠ 5 still clears the
pending flag and the stored association id (main.c lines 238-245 clear
them unconditionally), contradicting the claim that a different
association id leaves the armed state unchanged. -/
theorem C5_counterexample :
    exArmed.s_deauth_pending = true ∧ exArmed.s_deauth_aid = 5 ∧
    (7 : Nat) ≠ 5 ∧
    (wifi_disconnected exMacB 7 exArmed).s_deauth_pending = false ∧
    (wifi_disconnected exMacB 7 exArmed).s_deauth_aid = 0 := by
  refine ⟨rfl, rfl, by decide, rfl, rfl⟩

/-- C5 amended: every disconnection event, regardless of its association
id, cancels the pending deauth — the timer is stopped (when created),
the pending flag and stored association id are cleared — while the
countdown state and known device are untouched. -/
theorem C5_any_disconnect_cancels (m : Mac) (aid : Nat) (s : Fw) :
    (wifi_disconnected m aid s).s_deauth_pending = false ∧
    (wifi_disconnected m aid s).s_deauth_aid = 0 ∧
    (wifi_disconnected m aid s).timer_running =
      (if s.timer_created then false else s.timer_running) ∧
    (wifi_disconnected m aid s).s_started = s.s_started ∧
    (wifi_disconnected m aid s).s_remaining = s.s_remaining ∧
    (wifi_disconnected m aid s).s_day_key = s.s_day_key ∧
    (wifi_disconnected m aid s).s_have_mac = s.s_have_mac ∧
    (wifi_disconnected m aid s).s_phone_mac = s.s_phone_mac := by
  simp [wifi_disconnected]

/-- C6: when the one-shot deauth timer fires while armed with a non-zero
association id, the deauthenticate action is invoked with the stored id,
and — whether the action succeeds (`ok = true`) or fails — the pending
flag and stored id are cleared; a second fire without re-arming performs
no action and does not change state, so each arming fires at most once. -/
theorem C6_deauth_fire_once (ok ok2 : Bool) (s : Fw)
    (h1 : s.s_deauth_pending = true) (h2 : s.s_deauth_aid ≠ 0)
    (h3 : s.timer_running = true) :
    (timer_fire ok s).2 = some s.s_deauth_aid ∧
    (timer_fire ok s).1.s_deauth_pending = false ∧
    (timer_fire ok s).1.s_deauth_aid = 0 ∧
    (timer_fire ok s).1.timer_running = false ∧
    timer_fire ok2 (timer_fire ok s).1 = ((timer_fire ok s).1, none) := by
  simp [timer_fire, deauth_timer_cb, h1, h2, h3]

/-- C6 witness: a concrete armed state fires once with its stored id. -/
theorem C6_deauth_fire_once_witness :
    (timer_fire true exArmed).2 = some exArmed.s_deauth_aid ∧
    (timer_fire true exArmed).1.s_deauth_pending = false ∧
    (timer_fire true exArmed).1.s_deauth_aid = 0 ∧
    (timer_fire true exArmed).1.timer_running = false ∧
    timer_fire false (timer_fire true exArmed).1 =
      ((timer_fire true exArmed).1, none) :=
  C6_deauth_fire_once true false exArmed rfl (by decide) rfl

/-- C10 counterexample: after an immediate save, a throttled save issued
when the system clock reads 30 (fewer than 60 seconds after any possible
wall-clock time of the immediate save) performs no write, because the
guard `now - 0 < 60` holds — contradicting "always performs a write". -/
theorem C10_counterexample :
    (nvs_save_state_immediate exFw exStore).1.s_last_save_epoch = 0 ∧
    (nvs_save_state 30 (nvs_save_state_immediate exFw exStore).1
      exStore).2.2 = false := by
  refine ⟨rfl, rfl⟩

/-- C1: on a main-loop tick whose time-source read succeeds (and whose
reading stays on the stored day), with `delta` the raw epoch difference
clamped to [0, 60]: when started with remaining > 0 the remaining time
drops by exactly `min delta remaining`, otherwise it is unchanged; the
drop never exceeds 60 (so a raw delta of 120 decrements by at most 60, a
negative raw delta by 0); `started` is untouched, and once remaining is
0 every further tick leaves it 0. -/
theorem C1_tick_decrement (s : Fw) (st : NvsStore)
    (lastEpoch sysNow epoch : Int) (t : Tm)
    (hday : day_key_from_tm t = s.s_day_key) :
    (s.s_started = true ∧ s.s_remaining > 0 →
      (loopCycle s st lastEpoch (some (t, epoch)) sysNow).fw.s_remaining =
        s.s_remaining -
          min (clampDelta (epoch - lastEpoch)) s.s_remaining) ∧
    (¬(s.s_started = true ∧ s.s_remaining > 0) →
      (loopCycle s st lastEpoch (some (t, epoch)) sysNow).fw.s_remaining =
        s.s_remaining) ∧
    (loopCycle s st lastEpoch (some (t, epoch)) sysNow).fw.s_started =
      s.s_started ∧
    s.s_remaining -
      (loopCycle s st lastEpoch (some (t, epoch)) sysNow).fw.s_remaining
        ≤ 60 ∧
    (s.s_remaining = 0 →
      (loopCycle s st lastEpoch (some (t, epoch)) sysNow).fw.s_remaining
        = 0) ∧
    (epoch - lastEpoch < 0 →
      (loopCycle s st lastEpoch (some (t, epoch)) sysNow).fw.s_remaining
        = s.s_remaining) := by
  rw [loopCycle_same_day s st lastEpoch sysNow epoch t hday]
  obtain ⟨h1, h2, h3, h4, h5⟩ :=
    tickStep_fields epoch lastEpoch sysNow s st
  obtain ⟨hb1, hb2⟩ := clampDelta_bounds (epoch - lastEpoch)
  refine ⟨?_, ?_, ?_, ?_, ?_, ?_⟩
  · intro hc
    show (tickStep epoch lastEpoch sysNow s st).fw.s_remaining = _
    rw [h5, if_pos hc]
  · intro hc
    show (tickStep epoch lastEpoch sysNow s st).fw.s_remaining = _
    rw [h5, if_neg hc]
  · exact h1
  · show s.s_remaining -
      (tickStep epoch lastEpoch sysNow s st).fw.s_remaining ≤ 60
    rw [h5]
    split <;> omega
  · intro h0
    show (tickStep epoch lastEpoch sysNow s st).fw.s_remaining = 0
    rw [h5]
    split <;> omega
  · intro hneg
    have hc0 : clampDelta (epoch - lastEpoch) = 0 := by
      simp [clampDelta, hneg]
    show (tickStep epoch lastEpoch sysNow s st).fw.s_remaining =
      s.s_remaining
    rw [h5, hc0]
    split <;> omega

/-- C1 witness: a concrete running state ticking with delta 1 on the
same day drops from 33240 to 33239. -/
theorem C1_tick_decrement_witness :
    (exFw.s_started = true ∧ exFw.s_remaining > 0 →
      (loopCycle exFw exStore 5000 (some (exTm, 5001)) 5001).fw.s_remaining =
        exFw.s_remaining -
          min (clampDelta (5001 - 5000)) exFw.s_remaining) ∧
    (¬(exFw.s_started = true ∧ exFw.s_remaining > 0) →
      (loopCycle exFw exStore 5000 (some (exTm, 5001)) 5001).fw.s_remaining =
        exFw.s_remaining) ∧
    (loopCycle exFw exStore 5000 (some (exTm, 5001)) 5001).fw.s_started =
      exFw.s_started ∧
    exFw.s_remaining -
      (loopCycle exFw exStore 5000 (some (exTm, 5001)) 5001).fw.s_remaining
        ≤ 60 ∧
    (exFw.s_remaining = 0 →
      (loopCycle exFw exStore 5000 (some (exTm, 5001)) 5001).fw.s_remaining
        = 0) ∧
    ((5001 : Int) - 5000 < 0 →
      (loopCycle exFw exStore 5000 (some (exTm, 5001)) 5001).fw.s_remaining
        = exFw.s_remaining) :=
  C1_tick_decrement exFw exStore 5000 5001 5001 exTm (by decide)

/-- C2: whenever the day key of a successfully read wall-clock time
differs from the stored one, both the boot-time check and the main-loop
check set `s_day_key` to the new value, reset `s_remaining` to the full
target, clear `s_started`, and persist through the unconditional
force-write path (the NVS record is rewritten and the throttle timestamp
zeroed); when `started` was already false with `remaining` already at the
target, the reset leaves both exactly as they were. -/
theorem C2_day_rollover_reset (s : Fw) (st : NvsStore) (fb t : Tm)
    (lastEpoch sysNow epoch : Int)
    (hnew : day_key_from_tm t ≠ s.s_day_key) :
    (bootEstablishDay (some t) fb s st).fw.s_day_key =
      day_key_from_tm t ∧
    (bootEstablishDay (some t) fb s st).fw.s_remaining =
      DAILY_TARGET_SEC ∧
    (bootEstablishDay (some t) fb s st).fw.s_started = false ∧
    (bootEstablishDay (some t) fb s st).fw.s_last_save_epoch = 0 ∧
    (bootEstablishDay (some t) fb s st).forceSaved = true ∧
    (bootEstablishDay (some t) fb s st).store =
      writeRecord { s with s_day_key := day_key_from_tm t
                           s_started := false
                           s_remaining := DAILY_TARGET_SEC } st ∧
    (loopCycle s st lastEpoch (some (t, epoch)) sysNow).forceSaved =
      true ∧
    (loopCycle s st lastEpoch (some (t, epoch)) sysNow).fw.s_day_key =
      day_key_from_tm t ∧
    (loopCycle s st lastEpoch (some (t, epoch)) sysNow).fw.s_started =
      false ∧
    (loopCycle s st lastEpoch (some (t, epoch)) sysNow).fw.s_remaining =
      DAILY_TARGET_SEC ∧
    (loopCycle s st lastEpoch (some (t, epoch)) sysNow).store =
      writeRecord { s with s_day_key := day_key_from_tm t
                           s_started := false
                           s_remaining := DAILY_TARGET_SEC } st ∧
    (s.s_started = false ∧ s.s_remaining = DAILY_TARGET_SEC →
      (loopCycle s st lastEpoch (some (t, epoch)) sysNow).fw.s_started =
        s.s_started ∧
      (loopCycle s st lastEpoch (some (t, epoch)) sysNow).fw.s_remaining
        = s.s_remaining) := by
  have hnew' : s.s_day_key ≠ day_key_from_tm t := Ne.symm hnew
  simp [bootEstablishDay, loopCycle, rolloverCheck, tickStep,
    nvs_save_state_immediate, hnew, hnew']
  exact fun ha hb => ⟨ha, hb.symm⟩

/-- C2 witness: the reset evaluated on a concrete state whose stored day
key 20251012 meets a reading for 20251013. -/
theorem C2_day_rollover_reset_witness :
    (bootEstablishDay (some exTm2) exTm exFw exStore).fw.s_day_key =
      day_key_from_tm exTm2 ∧
    (bootEstablishDay (some exTm2) exTm exFw exStore).fw.s_remaining =
      DAILY_TARGET_SEC ∧
    (bootEstablishDay (some exTm2) exTm exFw exStore).fw.s_started =
      false ∧
    (bootEstablishDay (some exTm2) exTm exFw exStore).fw.s_last_save_epoch
      = 0 ∧
    (bootEstablishDay (some exTm2) exTm exFw exStore).forceSaved = true ∧
    (bootEstablishDay (some exTm2) exTm exFw exStore).store =
      writeRecord { exFw with s_day_key := day_key_from_tm exTm2
                              s_started := false
                              s_remaining := DAILY_TARGET_SEC } exStore ∧
    (loopCycle exFw exStore 5000 (some (exTm2, 5001)) 5001).forceSaved =
      true ∧
    (loopCycle exFw exStore 5000 (some (exTm2, 5001)) 5001).fw.s_day_key =
      day_key_from_tm exTm2 ∧
    (loopCycle exFw exStore 5000 (some (exTm2, 5001)) 5001).fw.s_started =
      false ∧
    (loopCycle exFw exStore 5000 (some (exTm2, 5001)) 5001).fw.s_remaining
      = DAILY_TARGET_SEC ∧
    (loopCycle exFw exStore 5000 (some (exTm2, 5001)) 5001).store =
      writeRecord { exFw with s_day_key := day_key_from_tm exTm2
                              s_started := false
                              s_remaining := DAILY_TARGET_SEC } exStore ∧
    (exFw.s_started = false ∧ exFw.s_remaining = DAILY_TARGET_SEC →
      (loopCycle exFw exStore 5000 (some (exTm2, 5001)) 5001).fw.s_started
        = exFw.s_started ∧
      (loopCycle exFw exStore 5000
          (some (exTm2, 5001)) 5001).fw.s_remaining = exFw.s_remaining) :=
  C2_day_rollover_reset exFw exStore exTm exTm2 5000 5001 5001 (by decide)

/-- C3: a connection event arriving with no device known and
`started == false` is accepted: the MAC is learned and persisted, the
countdown starts (`started := true`) with a second immediate persist, and
a delayed deauth for the event's association id is armed with the
configured 4-second delay. -/
theorem C3_first_connection (m : Mac) (aid : Nat) (s : Fw)
    (st : NvsStore) (h1 : s.s_have_mac = false) (h2 : s.s_started = false)
    (h3 : s.timer_created = true) :
    (wifi_connected m aid s st).fw.s_have_mac = true ∧
    (wifi_connected m aid s st).fw.s_phone_mac = m ∧
    (wifi_connected m aid s st).fw.s_started = true ∧
    (wifi_connected m aid s st).fw.s_last_save_epoch = 0 ∧
    (wifi_connected m aid s st).store.mac_blob = some m ∧
    (wifi_connected m aid s st).store.started_u8 = some 1 ∧
    (wifi_connected m aid s st).store.have_mac_u8 = some 1 ∧
    (wifi_connected m aid s st).immediateSaves = 2 ∧
    (wifi_connected m aid s st).fw.s_deauth_pending = true ∧
    (wifi_connected m aid s st).fw.s_deauth_aid = aid ∧
    (wifi_connected m aid s st).fw.timer_running = true ∧
    (wifi_connected m aid s st).fw.timer_delay_us =
      DEAUTH_DELAY_MS * 1000 := by
  simp [wifi_connected, nvs_save_state_immediate, writeRecord, h1, h2, h3]

/-- C3 witness: a concrete first connection from AA:BB:CC:DD:EE:FF with
association id 3 on a fresh state. -/
theorem C3_first_connection_witness :
    (wifi_connected exMacA 3 exFresh exStore).fw.s_have_mac = true ∧
    (wifi_connected exMacA 3 exFresh exStore).fw.s_phone_mac = exMacA ∧
    (wifi_connected exMacA 3 exFresh exStore).fw.s_started = true ∧
    (wifi_connected exMacA 3 exFresh exStore).fw.s_last_save_epoch = 0 ∧
    (wifi_connected exMacA 3 exFresh exStore).store.mac_blob =
      some exMacA ∧
    (wifi_connected exMacA 3 exFresh exStore).store.started_u8 =
      some 1 ∧
    (wifi_connected exMacA 3 exFresh exStore).store.have_mac_u8 =
      some 1 ∧
    (wifi_connected exMacA 3 exFresh exStore).immediateSaves = 2 ∧
    (wifi_connected exMacA 3 exFresh exStore).fw.s_deauth_pending =
      true ∧
    (wifi_connected exMacA 3 exFresh exStore).fw.s_deauth_aid = 3 ∧
    (wifi_connected exMacA 3 exFresh exStore).fw.timer_running = true ∧
    (wifi_connected exMacA 3 exFresh exStore).fw.timer_delay_us =
      DEAUTH_DELAY_MS * 1000 :=
  C3_first_connection exMacA 3 exFresh exStore rfl rfl rfl

/-- C7: on a same-day cycle the throttled save is attempted exactly when
the tick's decrement was positive and the post-decrement remaining is a
multiple of 60; when attempted it writes exactly when at least 60
seconds of system time have elapsed since the last save; and the
throttled path by itself never produces two writes fewer than 60 seconds
apart (a write at `now1` forces the next throttled write to some
`now2 ≥ now1 + 60`). -/
theorem C7_throttled_save (s : Fw) (st : NvsStore)
    (lastEpoch sysNow epoch : Int) (t : Tm)
    (hday : day_key_from_tm t = s.s_day_key) :
    ((loopCycle s st lastEpoch (some (t, epoch)) sysNow).throttleAttempted
        = true ↔
      (s.s_started = true ∧ s.s_remaining > 0 ∧
        0 < min (clampDelta (epoch - lastEpoch)) s.s_remaining ∧
        (s.s_remaining -
          min (clampDelta (epoch - lastEpoch)) s.s_remaining) % 60
          = 0)) ∧
    ((loopCycle s st lastEpoch (some (t, epoch)) sysNow).throttleWrote
        = true ↔
      ((loopCycle s st lastEpoch
          (some (t, epoch)) sysNow).throttleAttempted = true ∧
        60 ≤ sysNow - s.s_last_save_epoch)) ∧
    (∀ (s1 : Fw) (st1 st2 : NvsStore) (now1 now2 : Int),
      (nvs_save_state now1 s1 st1).2.2 = true →
      (nvs_save_state now2 (nvs_save_state now1 s1 st1).1 st2).2.2 =
        true →
      60 ≤ now2 - now1) := by
  rw [loopCycle_same_day s st lastEpoch sysNow epoch t hday]
  refine ⟨?_, ?_, ?_⟩
  · show (tickStep epoch lastEpoch sysNow s st).attempted = true ↔ _
    simp only [tickStep, nvs_save_state, code_dec_eq_min]
    split <;> (try split) <;> (try split) <;> simp_all
  · show (tickStep epoch lastEpoch sysNow s st).wrote = true ↔
      ((tickStep epoch lastEpoch sysNow s st).attempted = true ∧ _)
    simp only [tickStep, nvs_save_state, code_dec_eq_min]
    split <;> (try split) <;> (try split) <;> simp_all
  · intro s1 st1 st2 now1 now2 hw1 hw2
    simp only [nvs_save_state] at hw1 hw2
    by_cases hc1 : now1 - s1.s_last_save_epoch < 60
    · rw [if_pos hc1] at hw1
      exact absurd hw1 (by simp)
    · rw [if_neg hc1] at hw1 hw2
      by_cases hc2 : now2 - now1 < 60
      · simp only [if_pos hc2] at hw2
        exact absurd hw2 (by simp)
      · omega

/-- C7 witness: a concrete cycle ticking 33240 down to 33239 attempts no
save (33239 is not a minute boundary); the spacing conjunct instantiated
at concrete stores. -/
theorem C7_throttled_save_witness :
    ((loopCycle exFw exStore 5000 (some (exTm, 5001)) 5001).throttleAttempted
        = true ↔
      (exFw.s_started = true ∧ exFw.s_remaining > 0 ∧
        0 < min (clampDelta (5001 - 5000)) exFw.s_remaining ∧
        (exFw.s_remaining -
          min (clampDelta (5001 - 5000)) exFw.s_remaining) % 60
          = 0)) ∧
    ((loopCycle exFw exStore 5000 (some (exTm, 5001)) 5001).throttleWrote
        = true ↔
      ((loopCycle exFw exStore 5000
          (some (exTm, 5001)) 5001).throttleAttempted = true ∧
        60 ≤ 5001 - exFw.s_last_save_epoch)) ∧
    (∀ (s1 : Fw) (st1 st2 : NvsStore) (now1 now2 : Int),
      (nvs_save_state now1 s1 st1).2.2 = true →
      (nvs_save_state now2 (nvs_save_state now1 s1 st1).1 st2).2.2 =
        true →
      60 ≤ now2 - now1) :=
  C7_throttled_save exFw exStore 5000 5001 5001 exTm (by decide)

/-- C10 amended: every immediate save resets the throttle timestamp to
zero, and a throttled save taken from a zeroed timestamp writes exactly
when the system clock reads at least 60 seconds past the epoch — so for
any realistic wall-clock value the next throttled save after an
immediate save always writes, regardless of how recently the immediate
write occurred. -/
theorem C10_immediate_resets_throttle (s : Fw) (st st2 : NvsStore)
    (now : Int) :
    (nvs_save_state_immediate s st).1.s_last_save_epoch = 0 ∧
    ((nvs_save_state now (nvs_save_state_immediate s st).1 st2).2.2 =
        true ↔ 60 ≤ now) := by
  constructor
  · rfl
  · simp only [nvs_save_state, nvs_save_state_immediate]
    split <;> simp_all

end Timekeeper
